import Mathlib

/-!
Verification of the git-lfs-sempress Compression Gate and Reconstruction
Quality Engine, shallowly embedded from the Python sources
(`src/git_lfs_sempress/{config,compression,filter,quality}.py`).

Bytes are modelled as `List ℕ` (byte values); numeric cell values as `ℚ`
(the claims under study are about exact threshold comparisons, which the
rational embedding captures; no claim depends on floating-point rounding).
The NaN produced by numpy *scalar* division by a zero total — which
warns but never raises — is modelled explicitly as `PyFloat.nan`.
A Python exception escaping a function is modelled as `Option.none`.
The external sempress codec is a parameter `encode/decode : List ℕ →
Option (List ℕ)`, `none` standing for a raised exception.
-/

namespace Sempress

/-- The two thresholds `should_compress` reads from the configuration
(`config.py`, `DEFAULT_CONFIG['thresholds']`): `min_size_mb` and
`min_compression_ratio`. -/
structure Thresholds where
  minSizeMB : ℚ
  minCompressionRatio : ℚ
deriving DecidableEq

/-- The default thresholds of `DEFAULT_CONFIG` in `config.py`:
`min_size_mb: 1`, `min_compression_ratio: 1.5`. -/
def defaultThresholds : Thresholds := ⟨1, 3/2⟩

/-- `SempressCompressor.estimate_compression_ratio` (`compression.py`,
lines 118-142): a pure size-bucketed heuristic.  `size_mb =
len(csv_data) / (1024*1024)`; buckets `< 1 → 2.5`, `< 10 → 4.0`,
`< 100 → 5.5`, else `7.0`. -/
def estimateCompressionRatio (byteLen : ℕ) : ℚ :=
  if (byteLen : ℚ) / (1024 * 1024) < 1 then 5/2
  else if (byteLen : ℚ) / (1024 * 1024) < 10 then 4
  else if (byteLen : ℚ) / (1024 * 1024) < 100 then 11/2
  else 7

/-- `Config.should_compress` (`config.py`, lines 139-165): skip when the
file is smaller than `min_size_mb` megabytes, skip when the estimated
ratio is below `min_compression_ratio`, otherwise compress. -/
def shouldCompress (t : Thresholds) (fileSizeBytes : ℕ) (estimatedRatio : ℚ) : Bool :=
  if (fileSizeBytes : ℚ) / (1024 * 1024) < t.minSizeMB then false
  else if estimatedRatio < t.minCompressionRatio then false
  else true

/-- `SempressFilter.clean` (`filter.py`, lines 44-83), with the stream
already read into `data`.  Empty input returns empty output; a gate
refusal returns the input; on codec success the achieved ratio
`len(csv_data) / len(compressed_data)` is checked (a zero-length blob
makes that division raise `ZeroDivisionError`, which the surrounding
`except` catches, falling back to the input, as does a codec
exception); an accepted blob is returned. -/
def clean (encode : List ℕ → Option (List ℕ)) (t : Thresholds) (data : List ℕ) :
    List ℕ :=
  if data.isEmpty then []
  else
    let est := estimateCompressionRatio data.length
    if ¬ shouldCompress t data.length est then data
    else
      match encode data with
      | none => data
      | some blob =>
        if blob.length = 0 then data
        else if (data.length : ℚ) / (blob.length : ℚ) < t.minCompressionRatio then data
        else blob

/-- The comma count of `SempressFilter.smudge`'s heuristic
(`filter.py`, line 113): the number of `,` (byte 44) in the first 100
bytes.  UTF-8 decoding with `errors='ignore'` keeps every 0x2C byte as
the character `,` (0x2C is never a continuation byte), so counting the
bytes is equivalent. -/
def commaCount (data : List ℕ) : ℕ :=
  (data.take 100).countP (fun b => b = 44)

/-- `SempressFilter.smudge` (`filter.py`, lines 99-130), with the
stream already read into `data`.  Empty input returns empty output; an
input whose 100-byte prefix holds more than 5 commas is classified as
plain CSV and passed through; otherwise the codec decode runs, its
exception falling back to the input. -/
def smudge (decode : List ℕ → Option (List ℕ)) (data : List ℕ) : List ℕ :=
  if data.isEmpty then []
  else if 5 < commaCount data then data
  else
    match decode data with
    | some csv => csv
    | none => data

/-! ### Quality Engine (`quality.py`) -/

/-- Severity values used by `quality.py`'s issue and warning records. -/
inductive Severity
  | CRITICAL | ERROR | WARNING | INFO
deriving DecidableEq

/-- The `type` tags of the issue records appended in `quality.py`. -/
inductive IssueKind
  | shapeMismatch | columnMismatch | stringMismatch | highError
deriving DecidableEq

/-- The `type` tags of the warning records appended in `quality.py`. -/
inductive WarnKind
  | minorError | moderateError
deriving DecidableEq

/-- An issue record (`quality.py`): severity, kind, and the column it
concerns (`none` for the structural issues, which carry no `column`
key).  The free-text `message`/`fix`/`example` strings are reporting
detail with no decision content and are not modelled. -/
structure Issue where
  severity : Severity
  kind : IssueKind
  column : Option String
deriving DecidableEq

/-- A warning record (`quality.py`): severity, kind and column. -/
structure Warn where
  severity : Severity
  kind : WarnKind
  column : String
deriving DecidableEq

/-- A Python float that may be NaN.  numpy scalar division warns but
never raises, so `np.int64(0) / 0` is NaN: it appears exactly where a
numpy-typed count is divided by a zero total (the `match_pct` of a
zero-row string column, and `overall_similarity` of a zero-cell table
whose column loop ran).  All comparisons against NaN are False in
Python. -/
inductive PyFloat
  | nan
  | val (x : ℚ)
deriving DecidableEq

instance : OfNat PyFloat 0 := ⟨.val 0⟩

instance : OfNat PyFloat 100 := ⟨.val 100⟩

/-- The per-column metric entry stored in `self.metrics[col]`.  For a
numeric column `quality.py` stores `rmse = sqrt(mse)`; the embedding
keeps `mse` itself (no claim reads `rmse`, and the monotone bijection
`sqrt` carries the same information over ℚ-representable inputs).  A
string column's `match_pct` is NaN exactly when the column has zero
rows (`np.int64(0) / 0`); a numeric column's metrics are only stored
for non-zero row counts (`np.max` raises on an empty array first). -/
inductive Metric
  | str (matchPct : PyFloat)
  | num (mae mse maxError relErrorPct exactPct : ℚ)
deriving DecidableEq

/-- A column of a table: `quality.py` dispatches on the pandas dtype,
`object` (string) versus numeric. -/
inductive Col
  | strCol (vals : List String)
  | numCol (vals : List ℚ)
deriving DecidableEq

/-- Row count of a column. -/
def Col.length : Col → ℕ
  | .strCol vs => vs.length
  | .numCol vs => vs.length

/-- A table: an ordered sequence of named columns (a pandas DataFrame
as `quality.py` consumes it). -/
structure Table where
  cols : List (String × Col)
deriving DecidableEq

/-- `df.shape`: `(row_count, column_count)`; the row count is the
length of the first column (pandas keeps all columns the same length,
`WellFormed` below states it). -/
def rowCount (t : Table) : ℕ :=
  match t.cols with
  | [] => 0
  | c :: _ => c.2.length

/-- `df.shape` of a table. -/
def shape (t : Table) : ℕ × ℕ := (rowCount t, t.cols.length)

/-- The column names, in order (`df.columns`). -/
def names (t : Table) : List String := t.cols.map Prod.fst

/-- `df[col]`: the first column carrying the name (pandas column
labels are unique in the DataFrames the filter round-trips). -/
def lookupCol (t : Table) (n : String) : Option Col :=
  ((t.cols.find? (fun p => p.1 = n)).map (·.2))

/-- The pandas invariants `quality.py` relies on: distinct column
names and every column of the table's row count. -/
def WellFormed (t : Table) : Prop :=
  (names t).Nodup ∧ ∀ p ∈ t.cols, (Prod.snd p).length = rowCount t

instance : DecidablePred WellFormed := fun t =>
  inferInstanceAs
    (Decidable ((names t).Nodup ∧ ∀ p ∈ t.cols, (Prod.snd p).length = rowCount t))

/-- `set(original.columns) == set(reconstructed.columns)` of
`QualityReport.analyze` stage 2, as mutual list inclusion. -/
def sameColumnSet (o r : Table) : Bool :=
  (names o).all (fun n => decide (n ∈ names r)) &&
    (names r).all (fun n => decide (n ∈ names o))

/-- `np.mean(np.abs(orig_vals - recon_vals))` of `_check_column`. -/
def maeOf (os rs : List ℚ) : ℚ :=
  (((os.zip rs).map (fun p => |p.1 - p.2|)).sum) / (os.length : ℚ)

/-- `np.mean((orig_vals - recon_vals) ** 2)` (the square of the stored
`rmse`). -/
def mseOf (os rs : List ℚ) : ℚ :=
  (((os.zip rs).map (fun p => (p.1 - p.2) ^ 2)).sum) / (os.length : ℚ)

/-- `np.max(np.abs(orig_vals - recon_vals))` of `_check_column`: the
values are non-negative, so the fold from `0` is their maximum. -/
def maxErrorOf (os rs : List ℚ) : ℚ :=
  ((os.zip rs).map (fun p => |p.1 - p.2|)).foldr max 0

/-- `np.mean(np.abs(orig_vals))` of `_check_column`. -/
def meanAbsOf (os : List ℚ) : ℚ :=
  ((os.map (fun x => |x|)).sum) / (os.length : ℚ)

/-- `rel_error` of `_check_column` (lines 99-103): `(mae / mean_val) *
100` when `mean_val > 0`, else `0`. -/
def relErrorPct (os rs : List ℚ) : ℚ :=
  if meanAbsOf os > 0 then maeOf os rs / meanAbsOf os * 100 else 0

/-- `exact_pct` of `_check_column` (lines 106-107). -/
def exactMatchPct (os rs : List ℚ) : ℚ :=
  (((os.zip rs).countP (fun p => p.1 == p.2) : ℚ) / (os.length : ℚ)) * 100

/-- What checking one column appends: its metric entry and the issues
and warnings it contributes. -/
structure ColOut where
  metric : Metric
  issues : List Issue
  warnings : List Warn
deriving DecidableEq

/-- `QualityReport._check_column` (`quality.py`, lines 61-154) for one
column pair, dispatching on the original column's dtype as the source
does.  `none` models a raised exception: a zero-row numeric column
raises `ValueError` at `np.max` on the empty difference array, and a
numeric original against a string reconstruction raises in
`recon.values.astype(float)` (non-numeric text).  A zero-row *string*
column does not raise: `matches` is the numpy scalar `np.int64(0)`,
so `matches / 0` is NaN with a RuntimeWarning, `NaN < 100` is False,
no issue is appended, and the NaN `match_pct` is stored.  A string
original against a numeric reconstruction compares
elementwise-unequal in pandas, hence zero matches. -/
def checkColumn (name : String) : Col → Col → Option ColOut
  | .strCol os, rc =>
    let matchCnt : ℕ :=
      match rc with
      | .strCol rs => (os.zip rs).countP (fun p => p.1 == p.2)
      | .numCol _ => 0
    if os.length = 0 then
      some { metric := .str .nan
             issues := []
             warnings := [] }
    else
      let pct : ℚ := ((matchCnt : ℚ) / (os.length : ℚ)) * 100
      some { metric := .str (.val pct)
             issues :=
               if pct < 100 then [⟨.ERROR, .stringMismatch, some name⟩] else []
             warnings := [] }
  | .numCol _, .strCol _ => none
  | .numCol os, .numCol rs =>
    if os.length = 0 then none
    else
      let relError := relErrorPct os rs
      let exactPct := exactMatchPct os rs
      let tier : List Issue × List Warn :=
        if exactPct = 100 then ([], [])
        else if relError < 1/100 then ([], [])
        else if relError < 1/10 then ([], [⟨.INFO, .minorError, name⟩])
        else if relError < 1 then ([], [⟨.WARNING, .moderateError, name⟩])
        else ([⟨.ERROR, .highError, some name⟩], [])
      some { metric :=
               .num (maeOf os rs) (mseOf os rs) (maxErrorOf os rs) relError exactPct
             issues := tier.1
             warnings := tier.2 }

/-- The per-cell match count a column pair contributes to
`_calculate_similarity` (lines 161-171): string cells on exact
equality, numeric cells when `|orig - recon| < 1e-10`.  The
numeric-versus-string case never executes (stage 3 raised first). -/
def simMatches : Col → Col → ℕ
  | .strCol os, .strCol rs => (os.zip rs).countP (fun p => p.1 == p.2)
  | .strCol _, .numCol _ => 0
  | .numCol os, .numCol rs =>
    (os.zip rs).countP (fun p => |p.1 - p.2| < 1 / 10 ^ 10)
  | .numCol _, .strCol _ => 0

/-- Stage 3 of `analyze`: fold `_check_column` over the original's
columns in order, looking each up in the reconstruction by name,
collecting metrics, issues and warnings.  `none` models an exception
escaping the loop. -/
def checkCols (r : Table) :
    List (String × Col) → Option (List (String × Metric) × List Issue × List Warn)
  | [] => some ([], [], [])
  | (n, oc) :: rest => do
    let rc ← lookupCol r n
    let co ← checkColumn n oc rc
    let (ms, is, ws) ← checkCols r rest
    some ((n, co.metric) :: ms, co.issues ++ is, co.warnings ++ ws)

/-- The `exact_matches` accumulation of `_calculate_similarity`. -/
def simCount (r : Table) : List (String × Col) → Option ℕ
  | [] => some 0
  | (n, oc) :: rest => do
    let rc ← lookupCol r n
    let s ← simCount r rest
    some (simMatches oc rc + s)

/-- The quality report of `_build_report` (lines 176-186).
`overallSimilarity` is the optional `self.metrics['overall_similarity']`
entry; `_build_report`'s `similarity_score` default of `0` is
`Report.similarityScore` below. -/
structure Report where
  overallSimilarity : Option PyFloat
  issues : List Issue
  warnings : List Warn
  columnMetrics : List (String × Metric)
deriving DecidableEq

/-- `similarity_score` of the built report:
`self.metrics.get('overall_similarity', 0)`. -/
def Report.similarityScore (r : Report) : PyFloat := r.overallSimilarity.getD 0

/-- `has_critical_issues` of the built report. -/
def Report.hasCriticalIssues (r : Report) : Bool :=
  r.issues.any (fun i => i.severity = .CRITICAL)

/-- `has_errors` of the built report. -/
def Report.hasErrors (r : Report) : Bool :=
  r.issues.any (fun i => i.severity = .ERROR)

/-- `QualityReport.analyze` (`quality.py`, lines 24-59): shape check,
column-set check, per-column stage, similarity aggregation.  A shape
or column-set mismatch short-circuits to a report holding the single
CRITICAL issue.  `none` models an exception escaping `analyze`
(stage-3 exceptions propagate).  When `total_cells == 0`, what
`exact_matches / total_cells` does depends on the type
`exact_matches` accumulated to: with no columns it is still the
Python `int 0` and the division raises `ZeroDivisionError` (`none`);
with at least one column it is a numpy scalar (the loop added
`np.int64` counts), so `0 / 0` is NaN and a NaN-similarity report is
returned.  (In pandas all columns share the row count, so a zero-cell
table with columns has `exact_matches == 0`.) -/
def analyze (o r : Table) : Option Report :=
  if shape o ≠ shape r then
    some { overallSimilarity := none
           issues := [⟨.CRITICAL, .shapeMismatch, none⟩]
           warnings := []
           columnMetrics := [] }
  else if ¬ sameColumnSet o r then
    some { overallSimilarity := none
           issues := [⟨.CRITICAL, .columnMismatch, none⟩]
           warnings := []
           columnMetrics := [] }
  else
    match checkCols r o.cols with
    | none => none
    | some (ms, is, ws) =>
      match simCount r o.cols with
      | none => none
      | some exact =>
        if rowCount o * o.cols.length = 0 then
          if o.cols.isEmpty then none
          else
            some { overallSimilarity := some .nan
                   issues := is
                   warnings := ws
                   columnMetrics := ms }
        else
          some { overallSimilarity :=
                   some (.val (((exact : ℚ) /
                     ((rowCount o * o.cols.length : ℕ) : ℚ)) * 100))
                 issues := is
                 warnings := ws
                 columnMetrics := ms }

/-! ### Theorems: the compression gate and filter paths -/

/-- C5.  For every non-empty byte input whose length is below the
settings' minimum size threshold, `should_compress` answers `false`
and the clean filter returns the original bytes unchanged, whatever
the codec would do — the codec is never invoked on this path. -/
theorem clean_skips_below_size_threshold (t : Thresholds) (data : List ℕ)
    (h1 : data ≠ [])
    (h2 : (data.length : ℚ) / (1024 * 1024) < t.minSizeMB) :
    shouldCompress t data.length (estimateCompressionRatio data.length) = false ∧
      ∀ encode : List ℕ → Option (List ℕ), clean encode t data = data := by
  have hsc : shouldCompress t data.length (estimateCompressionRatio data.length)
      = false := by
    unfold shouldCompress
    rw [if_pos h2]
  refine ⟨hsc, fun encode => ?_⟩
  unfold clean
  simp [List.isEmpty_iff, h1, hsc]

/-- Witness for C5: a one-byte input under the default 1 MB threshold
is passed through unchanged and the gate answers `false`. -/
theorem clean_skips_below_size_threshold_w :
    shouldCompress defaultThresholds 1 (estimateCompressionRatio 1) = false ∧
      clean (fun _ => some [7]) defaultThresholds [48] = [48] := by
  have h := clean_skips_below_size_threshold defaultThresholds [48]
    (by decide) (by norm_num [defaultThresholds])
  exact ⟨h.1, h.2 _⟩

/-- C4.  For every non-empty input that passes the size and ratio
pre-checks, a codec failure (`encode` raising, modelled as `none`)
makes the clean filter return the original input bytes unchanged; the
failure is swallowed, never propagated. -/
theorem clean_codec_failure_fallback (encode : List ℕ → Option (List ℕ))
    (t : Thresholds) (data : List ℕ) (h1 : data ≠ [])
    (h2 : shouldCompress t data.length (estimateCompressionRatio data.length) = true)
    (h3 : encode data = none) :
    clean encode t data = data := by
  unfold clean
  simp [List.isEmpty_iff, h1, h2, h3]

/-- Witness for C4: with thresholds `⟨0, 1⟩` a two-byte input passes
both pre-checks and a failing codec leaves it unchanged. -/
theorem clean_codec_failure_fallback_w :
    clean (fun _ => none) ⟨0, 1⟩ [48, 49] = [48, 49] :=
  clean_codec_failure_fallback (fun _ => none) ⟨0, 1⟩ [48, 49]
    (by decide) (by norm_num [shouldCompress, estimateCompressionRatio]) rfl

/-- C8.  In the accept/reject step the achieved ratio is
`len(raw_bytes) / len(blob)`: a zero-length blob is treated as a codec
failure (the `ZeroDivisionError` is caught and the original bytes
returned), and a blob meeting the ratio floor is accepted. -/
theorem clean_achieved_ratio_guard (encode : List ℕ → Option (List ℕ))
    (t : Thresholds) (data : List ℕ) (h1 : data ≠ [])
    (h2 : shouldCompress t data.length (estimateCompressionRatio data.length) = true) :
    (encode data = some [] → clean encode t data = data) ∧
      ∀ blob, encode data = some blob → blob ≠ [] →
        ¬ ((data.length : ℚ) / (blob.length : ℚ) < t.minCompressionRatio) →
        clean encode t data = blob := by
  constructor
  · intro h3
    unfold clean
    simp [List.isEmpty_iff, h1, h2, h3]
  · intro blob h3 h4 h5
    unfold clean
    simp [List.isEmpty_iff, h1, h2, h3, h4, h5, List.length_eq_zero]

/-- Witness for C8: with thresholds `⟨0, 1⟩` and input `[48, 49]`, an
empty blob falls back to the input and a one-byte blob (achieved ratio
2) is accepted. -/
theorem clean_achieved_ratio_guard_w :
    clean (fun _ => some []) ⟨0, 1⟩ [48, 49] = [48, 49] ∧
      clean (fun _ => some [7]) ⟨0, 1⟩ [48, 49] = [7] := by
  refine ⟨(clean_achieved_ratio_guard (fun _ => some []) ⟨0, 1⟩ [48, 49]
      (by decide) (by norm_num [shouldCompress, estimateCompressionRatio])).1 rfl,
    (clean_achieved_ratio_guard (fun _ => some [7]) ⟨0, 1⟩ [48, 49]
      (by decide)
      (by norm_num [shouldCompress, estimateCompressionRatio])).2 [7] rfl
      (by decide) (by norm_num)⟩

/-- C6.  Both filter paths are total and fall back to their input: the
clean path returns either the original bytes or a blob the codec
actually produced, and the smudge path returns either the original
bytes or a decode result the codec actually produced.  In particular
every modelled internal failure (codec exception, zero-length blob)
yields the original bytes, and some output is always produced. -/
theorem filter_paths_always_produce_output :
    ∀ (encode decode : List ℕ → Option (List ℕ)) (t : Thresholds) (data : List ℕ),
      (clean encode t data = data ∨
        ∃ blob, encode data = some blob ∧ clean encode t data = blob) ∧
      (smudge decode data = data ∨
        ∃ csv, decode data = some csv ∧ smudge decode data = csv) := by
  intro encode decode t data
  constructor
  · by_cases h : data = []
    · subst h
      exact Or.inl rfl
    · unfold clean
      rw [if_neg (by simp [List.isEmpty_iff, h])]
      by_cases hg : shouldCompress t data.length (estimateCompressionRatio data.length)
          = true
      · rw [if_neg (by simp [hg])]
        cases henc : encode data with
        | none => exact Or.inl rfl
        | some blob =>
          dsimp only
          by_cases hb : blob.length = 0
          · rw [if_pos hb]
            exact Or.inl rfl
          · rw [if_neg hb]
            by_cases hr : (data.length : ℚ) / (blob.length : ℚ) < t.minCompressionRatio
            · rw [if_pos hr]
              exact Or.inl rfl
            · rw [if_neg hr]
              exact Or.inr ⟨blob, rfl, rfl⟩
      · rw [if_pos hg]
        exact Or.inl rfl
  · by_cases h : data = []
    · subst h
      exact Or.inl rfl
    · unfold smudge
      rw [if_neg (by simp [List.isEmpty_iff, h])]
      by_cases hc : 5 < commaCount data
      · rw [if_pos hc]
        exact Or.inl rfl
      · rw [if_neg hc]
        cases hdec : decode data with
        | none => exact Or.inl rfl
        | some csv => exact Or.inr ⟨csv, rfl, rfl⟩

/-- C7.  On the smudge path, an input whose 100-byte prefix holds more
than 5 commas is classified as plain table text and passed through
unchanged whatever the codec would answer, and on any input where
decode fails the input is passed through unchanged. -/
theorem smudge_heuristic_and_fallback :
    ∀ (decode : List ℕ → Option (List ℕ)) (data : List ℕ),
      (5 < commaCount data → smudge decode data = data) ∧
      (decode data = none → smudge decode data = data) := by
  intro decode data
  constructor
  · intro h
    by_cases he : data = []
    · subst he
      rfl
    · unfold smudge
      rw [if_neg (by simp [List.isEmpty_iff, he]), if_pos h]
  · intro h
    by_cases he : data = []
    · subst he
      rfl
    · unfold smudge
      rw [if_neg (by simp [List.isEmpty_iff, he])]
      by_cases hc : 5 < commaCount data
      · rw [if_pos hc]
      · rw [if_neg hc]
        simp only [h]

/-- Witness for C7: six commas pass through with a decoder that would
answer, and a comma-free input passes through when decode fails. -/
theorem smudge_heuristic_and_fallback_w :
    smudge (fun _ => some [9]) [44, 44, 44, 44, 44, 44] = [44, 44, 44, 44, 44, 44] ∧
      smudge (fun _ => none) [48] = [48] :=
  ⟨(smudge_heuristic_and_fallback (fun _ => some [9]) [44, 44, 44, 44, 44, 44]).1
      (by decide),
    (smudge_heuristic_and_fallback (fun _ => none) [48]).2 rfl⟩

/-- C9.  The ratio estimator is a pure function of the byte size that
always returns at least `1` and is monotonically non-decreasing in the
size. -/
theorem estimateCompressionRatio_spec :
    (∀ n : ℕ, 1 ≤ estimateCompressionRatio n) ∧
      ∀ a b : ℕ, a ≤ b →
        estimateCompressionRatio a ≤ estimateCompressionRatio b := by
  constructor
  · intro n
    unfold estimateCompressionRatio
    split_ifs <;> norm_num
  · intro a b hab
    have h : (a : ℚ) / (1024 * 1024) ≤ (b : ℚ) / (1024 * 1024) := by
      have hc : (a : ℚ) ≤ (b : ℚ) := by exact_mod_cast hab
      linarith
    unfold estimateCompressionRatio
    split_ifs <;> linarith

/-- Witness for C9: concrete sizes 5 ≤ 2000000 with their estimates
ordered, and the lower bound at 5. -/
theorem estimateCompressionRatio_spec_w :
    1 ≤ estimateCompressionRatio 5 ∧
      estimateCompressionRatio 5 ≤ estimateCompressionRatio 2000000 :=
  ⟨estimateCompressionRatio_spec.1 5,
    estimateCompressionRatio_spec.2 5 2000000 (by norm_num)⟩

/-! ### Theorems: the Quality Engine -/

/-- The numeric branch of `_check_column`, with the tier pair
distributed over the two record fields (a shared helper). -/
theorem checkColumn_num_eq (colName : String) (os rs : List ℚ)
    (hl : ¬ os.length = 0) :
    checkColumn colName (.numCol os) (.numCol rs) =
      some { metric := .num (maeOf os rs) (mseOf os rs) (maxErrorOf os rs)
               (relErrorPct os rs) (exactMatchPct os rs)
             issues :=
               if exactMatchPct os rs = 100 then []
               else if relErrorPct os rs < 1/100 then []
               else if relErrorPct os rs < 1/10 then []
               else if relErrorPct os rs < 1 then []
               else [⟨.ERROR, .highError, some colName⟩]
             warnings :=
               if exactMatchPct os rs = 100 then []
               else if relErrorPct os rs < 1/100 then []
               else if relErrorPct os rs < 1/10 then [⟨.INFO, .minorError, colName⟩]
               else if relErrorPct os rs < 1 then [⟨.WARNING, .moderateError, colName⟩]
               else [] } := by
  unfold checkColumn
  dsimp only
  rw [if_neg hl]
  split_ifs <;> rfl

/-- C1.  Numeric tier classification of `_check_column`: a column with
100% exact matches contributes no issue and no warning; otherwise the
half-open tiers on `relative_error_pct` apply: below 0.01% nothing is
stored, `[0.01%, 0.1%)` appends one INFO warning, `[0.1%, 1.0%)`
appends one WARNING warning (so relative error exactly 0.1% is
WARNING, not ERROR), and at or above 1.0% appends one ERROR issue. -/
theorem numeric_tier_classification (colName : String) (os rs : List ℚ)
    (h : os ≠ []) :
    ∃ co, checkColumn colName (.numCol os) (.numCol rs) = some co ∧
      (exactMatchPct os rs = 100 → co.issues = [] ∧ co.warnings = []) ∧
      (exactMatchPct os rs ≠ 100 →
        (relErrorPct os rs < 1/100 → co.issues = [] ∧ co.warnings = []) ∧
        (1/100 ≤ relErrorPct os rs → relErrorPct os rs < 1/10 →
          co.issues = [] ∧ co.warnings = [⟨.INFO, .minorError, colName⟩]) ∧
        (1/10 ≤ relErrorPct os rs → relErrorPct os rs < 1 →
          co.issues = [] ∧ co.warnings = [⟨.WARNING, .moderateError, colName⟩]) ∧
        (1 ≤ relErrorPct os rs →
          co.issues = [⟨.ERROR, .highError, some colName⟩] ∧ co.warnings = [])) := by
  have hl : ¬ os.length = 0 := fun hc => h (List.length_eq_zero.mp hc)
  refine ⟨_, checkColumn_num_eq colName os rs hl, ?_, ?_⟩
  · intro h100
    exact ⟨by dsimp only; rw [if_pos h100], by dsimp only; rw [if_pos h100]⟩
  · intro h100
    refine ⟨fun h1 => ?_, fun h1 h2 => ?_, fun h1 h2 => ?_, fun h1 => ?_⟩
    · exact ⟨by dsimp only; rw [if_neg h100, if_pos h1],
        by dsimp only; rw [if_neg h100, if_pos h1]⟩
    · have e1 : ¬ relErrorPct os rs < 1/100 := not_lt.mpr h1
      exact ⟨by dsimp only; rw [if_neg h100, if_neg e1, if_pos h2],
        by dsimp only; rw [if_neg h100, if_neg e1, if_pos h2]⟩
    · have e1 : ¬ relErrorPct os rs < 1/100 := not_lt.mpr (by linarith)
      have e2 : ¬ relErrorPct os rs < 1/10 := not_lt.mpr h1
      exact ⟨by dsimp only; rw [if_neg h100, if_neg e1, if_neg e2, if_pos h2],
        by dsimp only; rw [if_neg h100, if_neg e1, if_neg e2, if_pos h2]⟩
    · have e1 : ¬ relErrorPct os rs < 1/100 := not_lt.mpr (by linarith)
      have e2 : ¬ relErrorPct os rs < 1/10 := not_lt.mpr (by linarith)
      have e3 : ¬ relErrorPct os rs < 1 := not_lt.mpr h1
      exact ⟨by dsimp only; rw [if_neg h100, if_neg e1, if_neg e2, if_neg e3],
        by dsimp only; rw [if_neg h100, if_neg e1, if_neg e2, if_neg e3]⟩

/-- Witness for C1: original `[1000]`, reconstruction `[999]` has
relative error exactly 0.1% and classifies as one WARNING-severity
warning with no issue — the half-open boundary. -/
theorem numeric_tier_classification_w :
    relErrorPct [1000] [999] = 1/10 ∧ exactMatchPct [1000] [999] ≠ 100 ∧
      ∃ co, checkColumn "a" (.numCol [1000]) (.numCol [999]) = some co ∧
        co.issues = [] ∧ co.warnings = [⟨.WARNING, .moderateError, "a"⟩] := by
  have hrel : relErrorPct [1000] [999] = 1/10 := by
    norm_num [relErrorPct, maeOf, meanAbsOf]
  have hex : exactMatchPct [1000] [999] ≠ 100 := by
    norm_num [exactMatchPct]
  obtain ⟨co, hco, _, htiers⟩ :=
    numeric_tier_classification "a" [1000] [999] (by decide)
  obtain ⟨-, -, h3, -⟩ := htiers hex
  exact ⟨hrel, hex, co, hco, h3 (by rw [hrel]) (by rw [hrel]; norm_num)⟩

/-- C10.  A numeric column whose original values are all zero has
`relative_error_pct` defined as 0, and `_check_column` emits no issue
and no warning for it whatever the reconstruction is; the error stays
visible only in the stored metric entry (`mae`, `max_error`,
`exact_match_pct`). -/
theorem zero_mean_column_emits_nothing (colName : String) (os rs : List ℚ)
    (h : os ≠ []) (hz : ∀ x ∈ os, x = 0) :
    relErrorPct os rs = 0 ∧
      checkColumn colName (.numCol os) (.numCol rs) =
        some { metric := .num (maeOf os rs) (mseOf os rs) (maxErrorOf os rs) 0
                 (exactMatchPct os rs)
               issues := []
               warnings := [] } := by
  have hl : ¬ os.length = 0 := fun hc => h (List.length_eq_zero.mp hc)
  have hmean : meanAbsOf os = 0 := by
    unfold meanAbsOf
    have : (os.map (fun x => |x|)).sum = 0 := by
      apply List.sum_eq_zero
      intro y hy
      obtain ⟨x, hx, rfl⟩ := List.mem_map.mp hy
      rw [hz x hx, abs_zero]
    rw [this, zero_div]
  have hrel : relErrorPct os rs = 0 := by
    unfold relErrorPct
    rw [hmean]
    simp
  have h01 : (0 : ℚ) < 1/100 := by norm_num
  refine ⟨hrel, ?_⟩
  rw [checkColumn_num_eq colName os rs hl, hrel]
  simp only [if_pos h01, ite_self]

/-- Witness for C10: the all-zero column `[0, 0]` against `[100, 200]`
gets relative error 0 and no issue or warning, its genuine error
showing only in the metric entry. -/
theorem zero_mean_column_emits_nothing_w :
    relErrorPct [0, 0] [100, 200] = 0 ∧
      checkColumn "z" (.numCol [0, 0]) (.numCol [100, 200]) =
        some { metric := .num (maeOf [0, 0] [100, 200]) (mseOf [0, 0] [100, 200])
                 (maxErrorOf [0, 0] [100, 200]) 0 (exactMatchPct [0, 0] [100, 200])
               issues := []
               warnings := [] } :=
  zero_mean_column_emits_nothing "z" [0, 0] [100, 200] (by decide) (by simp)

/-- C3.  A shape mismatch short-circuits `analyze`: the report holds
exactly the one CRITICAL `shape_mismatch` issue, no warnings, no
per-column metrics, no computed similarity (the `similarity_score`
field falls back to the default 0, not a computed value). -/
theorem shape_mismatch_short_circuits (o r : Table) (h : shape o ≠ shape r) :
    ∃ rep, analyze o r = some rep ∧
      rep.issues = [⟨.CRITICAL, .shapeMismatch, none⟩] ∧
      rep.warnings = [] ∧ rep.columnMetrics = [] ∧
      rep.overallSimilarity = none ∧ rep.similarityScore = 0 := by
  have heq : analyze o r =
      some { overallSimilarity := none
             issues := [⟨.CRITICAL, .shapeMismatch, none⟩]
             warnings := []
             columnMetrics := [] } := by
    unfold analyze
    rw [if_pos h]
  exact ⟨_, heq, rfl, rfl, rfl, rfl, rfl⟩

/-- Witness for C3: a 1×1 table against a 0×0 table. -/
theorem shape_mismatch_short_circuits_w :
    ∃ rep, analyze ⟨[("a", .numCol [1])]⟩ ⟨[]⟩ = some rep ∧
      rep.issues = [⟨.CRITICAL, .shapeMismatch, none⟩] ∧
      rep.warnings = [] ∧ rep.columnMetrics = [] ∧
      rep.overallSimilarity = none ∧ rep.similarityScore = 0 :=
  shape_mismatch_short_circuits ⟨[("a", .numCol [1])]⟩ ⟨[]⟩ (by decide)

/-- Counterexample to C2 as stated: on the empty table (a table, with
shape `(0, 0)`), the column loop never runs, `exact_matches` is still
the Python `int 0`, and `analyze` raises `ZeroDivisionError` computing
`exact_matches / total_cells` with `total_cells == 0` (modelled as
`none`) — so `analyze(T, T)` does not yield a report with
`similarity_score == 100` for *every* table `T`. -/
theorem analyze_self_empty_table_raises : analyze ⟨[]⟩ ⟨[]⟩ = none := rfl

/-- The other degenerate self-comparisons, documenting the boundary:
a zero-row table whose columns are all strings does not raise — each
`match_pct` and the similarity score are NaN (numpy `0 / 0`) — and
its report still has empty issue and warning lists but a NaN
similarity, not 100. -/
theorem analyze_self_zero_row_string_col :
    analyze ⟨[("a", .strCol [])]⟩ ⟨[("a", .strCol [])]⟩ =
      some { overallSimilarity := some .nan
             issues := []
             warnings := []
             columnMetrics := [("a", .str .nan)] } := rfl

/-- A zero-row table with a numeric column raises `ValueError` at
`np.max` over the empty difference array inside `_check_column`
(modelled as `none`). -/
theorem analyze_self_zero_row_numeric_col :
    analyze ⟨[("a", .numCol [])]⟩ ⟨[("a", .numCol [])]⟩ = none := rfl

/-- Counting over the diagonal zip with a reflexive predicate gives
the length (a shared helper). -/
theorem countP_zip_self {α : Type} (p : α × α → Bool) (hp : ∀ a, p (a, a) = true)
    (vs : List α) : (vs.zip vs).countP p = vs.length := by
  induction vs with
  | nil => rfl
  | cons v t ih => simp [List.zip_cons_cons, List.countP_cons, hp v, ih]

/-- A column fully matches itself: `exact_pct` is 100. -/
theorem exactMatchPct_self (vs : List ℚ) (h : vs.length ≠ 0) :
    exactMatchPct vs vs = 100 := by
  unfold exactMatchPct
  rw [countP_zip_self _ (fun a => beq_self_eq_true a) vs,
    div_self (Nat.cast_ne_zero.mpr h), one_mul]

/-- `_check_column` on a column against itself emits no issue and no
warning. -/
theorem checkColumn_self (n : String) (c : Col) (hc : c.length ≠ 0) :
    ∃ m, checkColumn n c c = some ⟨m, [], []⟩ := by
  cases c with
  | strCol vs =>
    have hl : ¬ vs.length = 0 := hc
    have hcnt : (vs.zip vs).countP (fun p => p.1 == p.2) = vs.length :=
      countP_zip_self _ (fun a => beq_self_eq_true a) vs
    refine ⟨.str (.val 100), ?_⟩
    unfold checkColumn
    dsimp only
    rw [if_neg hl, hcnt, div_self (Nat.cast_ne_zero.mpr hl), one_mul,
      if_neg (lt_irrefl (100 : ℚ))]
  | numCol vs =>
    have hl : ¬ vs.length = 0 := hc
    refine ⟨.num (maeOf vs vs) (mseOf vs vs) (maxErrorOf vs vs) (relErrorPct vs vs)
      (exactMatchPct vs vs), ?_⟩
    rw [checkColumn_num_eq n vs vs hl]
    rw [if_pos (exactMatchPct_self vs hl), if_pos (exactMatchPct_self vs hl)]

/-- In a list of named columns with distinct names, `find?` by a
member's name returns that member. -/
theorem findName_self (l : List (String × Col)) (hnd : (l.map Prod.fst).Nodup) :
    ∀ p ∈ l, l.find? (fun q => q.1 = p.1) = some p := by
  induction l with
  | nil => intro p hp; cases hp
  | cons q t ih =>
    intro p hp
    rcases List.mem_cons.mp hp with rfl | hpt
    · rw [List.find?_cons_of_pos]
      simp
    · have hq : ¬ (q.1 = p.1) := by
        intro he
        have hmem : p.1 ∈ t.map Prod.fst := List.mem_map_of_mem Prod.fst hpt
        rw [← he] at hmem
        exact (List.nodup_cons.mp hnd).1 hmem
      rw [List.find?_cons_of_neg]
      · exact ih (List.nodup_cons.mp hnd).2 p hpt
      · simp [hq]

/-- With distinct column names, `df[col]` for a member column returns
it. -/
theorem lookupCol_self (T : Table) (hnd : (names T).Nodup) :
    ∀ p ∈ T.cols, lookupCol T p.1 = some p.2 := by
  intro p hp
  unfold lookupCol
  rw [findName_self T.cols hnd p hp]
  rfl

/-- A column against itself contributes its full length to the
similarity count. -/
theorem simMatches_self (c : Col) : simMatches c c = c.length := by
  cases c with
  | strCol vs => exact countP_zip_self _ (fun a => beq_self_eq_true a) vs
  | numCol vs =>
    refine countP_zip_self _ (fun a => ?_) vs
    have : |a - a| < 1 / 10 ^ 10 := by rw [sub_self, abs_zero]; norm_num
    exact decide_eq_true this

/-- Stage 3 over self-lookups: every column checks clean. -/
theorem checkCols_self (r : Table) (l : List (String × Col))
    (hlk : ∀ p ∈ l, lookupCol r p.1 = some p.2)
    (hlen : ∀ p ∈ l, (Prod.snd p).length ≠ 0) :
    ∃ ms, checkCols r l = some (ms, [], []) := by
  induction l with
  | nil => exact ⟨[], rfl⟩
  | cons q t ih =>
    obtain ⟨n, oc⟩ := q
    obtain ⟨ms, hms⟩ := ih (fun p hp => hlk p (List.mem_cons_of_mem _ hp))
      (fun p hp => hlen p (List.mem_cons_of_mem _ hp))
    obtain ⟨m, hm⟩ := checkColumn_self n oc (hlen (n, oc) (List.mem_cons_self _ _))
    refine ⟨(n, m) :: ms, ?_⟩
    rw [checkCols, hlk (n, oc) (List.mem_cons_self _ _)]
    simp [hm, hms]

/-- Stage 4 over self-lookups: the exact-match count is the total cell
count, column by column. -/
theorem simCount_self (r : Table) (l : List (String × Col))
    (hlk : ∀ p ∈ l, lookupCol r p.1 = some p.2) :
    simCount r l = some ((l.map (fun p => (Prod.snd p).length)).sum) := by
  induction l with
  | nil => rfl
  | cons q t ih =>
    obtain ⟨n, oc⟩ := q
    rw [simCount, hlk (n, oc) (List.mem_cons_self _ _)]
    simp [ih (fun p hp => hlk p (List.mem_cons_of_mem _ hp)), simMatches_self]

/-- Stage 2 accepts a table against itself. -/
theorem sameColumnSet_self (T : Table) : sameColumnSet T T = true := by
  simp [sameColumnSet, List.all_eq_true]

/-- C2 (amended).  For every well-formed table with at least one row
and at least one column, `analyze(T, T)` yields a report with
`similarity_score == 100` and empty issue and warning lists.  (The
zero-cell tables must be excluded: with no columns `analyze` raises
`ZeroDivisionError` at the similarity division; with zero rows, a
numeric column raises `ValueError` at `np.max`, and an all-string
table yields a NaN similarity score instead of 100.) -/
theorem analyze_self_is_perfect (T : Table) (hwf : WellFormed T)
    (hr : rowCount T ≠ 0) (hc : T.cols ≠ []) :
    ∃ rep, analyze T T = some rep ∧ rep.overallSimilarity = some 100 ∧
      rep.issues = [] ∧ rep.warnings = [] ∧ rep.similarityScore = 100 := by
  obtain ⟨hnd, hlen⟩ := hwf
  have hlk : ∀ p ∈ T.cols, lookupCol T p.1 = some p.2 := lookupCol_self T hnd
  have hlen' : ∀ p ∈ T.cols, (Prod.snd p).length ≠ 0 := fun p hp => by
    rw [hlen p hp]; exact hr
  obtain ⟨ms, hms⟩ := checkCols_self T T.cols hlk hlen'
  have hsim := simCount_self T T.cols hlk
  have htot : ¬ rowCount T * T.cols.length = 0 := by
    intro h0
    rcases Nat.mul_eq_zero.mp h0 with h | h
    · exact hr h
    · exact hc (List.length_eq_zero.mp h)
  have hsum : (T.cols.map (fun p => (Prod.snd p).length)).sum =
      rowCount T * T.cols.length := by
    rw [List.sum_eq_card_nsmul _ (rowCount T) ?_, List.length_map, smul_eq_mul,
      Nat.mul_comm]
    intro x hx
    obtain ⟨p, hp, rfl⟩ := List.mem_map.mp hx
    exact hlen p hp
  have h100 : ((((T.cols.map (fun p => (Prod.snd p).length)).sum : ℕ) : ℚ) /
      ((rowCount T * T.cols.length : ℕ) : ℚ)) * 100 = 100 := by
    rw [hsum, div_self (Nat.cast_ne_zero.mpr htot), one_mul]
  have heq : analyze T T =
      some { overallSimilarity :=
               some (.val (((((T.cols.map (fun p => (Prod.snd p).length)).sum : ℕ) : ℚ) /
                 ((rowCount T * T.cols.length : ℕ) : ℚ)) * 100))
             issues := []
             warnings := []
             columnMetrics := ms } := by
    unfold analyze
    rw [if_neg (not_not_intro rfl), if_neg (not_not_intro (sameColumnSet_self T)),
      hms]
    dsimp only
    rw [hsim]
    dsimp only
    rw [if_neg htot]
  refine ⟨_, heq, ?_, rfl, rfl, ?_⟩
  · rw [h100]
    rfl
  · show Report.similarityScore _ = 100
    rw [Report.similarityScore, Option.getD_some, h100]
    rfl

/-- Witness for C2 (amended): a 2×2 table of one numeric and one
string column analyzed against itself. -/
theorem analyze_self_is_perfect_w :
    ∃ rep, analyze ⟨[("a", .numCol [1, 2]), ("b", .strCol ["x", "y"])]⟩
        ⟨[("a", .numCol [1, 2]), ("b", .strCol ["x", "y"])]⟩ = some rep ∧
      rep.overallSimilarity = some 100 ∧
      rep.issues = [] ∧ rep.warnings = [] ∧ rep.similarityScore = 100 :=
  analyze_self_is_perfect ⟨[("a", .numCol [1, 2]), ("b", .strCol ["x", "y"])]⟩
    ⟨by decide, by decide⟩ (by decide) (by decide)

end Sempress
